import Mathlib

/-!
# Verification of the sf_restcalls client library

Shallow embedding of `src/sf_restcalls/snowflake_client.py` and
`src/sf_restcalls/cli.py`.  The external Snowflake driver
(`snowflake.connector`) is modelled as an oracle: a function from the
arguments the code hands it to an outcome (success / database error /
programming error / other exception).  Every function below mirrors one
Python function; driver invocations are returned explicitly as a trace so
that theorems can state "the driver is (not) invoked".
-/

namespace SfRestcalls

/-- Dynamic scalar values exchanged with the driver (Python scalars). -/
inductive Value where
  | str (s : String)
  | int (n : Int)
  | bool (b : Bool)
  | null
deriving DecidableEq, Repr

/-- A native connection handle as returned by `snowflake.connector.connect`.
`closed` models what `Connection.is_closed()` reports; `id` distinguishes
handles. -/
structure Connection where
  id : Nat
  closed : Bool
deriving DecidableEq, Repr

/-- The error taxonomy of `src/sf_restcalls/exceptions.py`.  Each carries the
message string it was constructed with. -/
inductive SfError where
  | snowflakeConnectionError (msg : String)
  | storedProcedureError (msg : String)
  | authenticationError (msg : String)
  | configurationError (msg : String)
deriving DecidableEq, Repr

/-- Python truthiness filter for an optional string: `if value:` keeps it only
when present and non-empty. -/
def pyTruthy : Option String → Option String
  | some s => if s.isEmpty then none else some s
  | none => none

/-- The keyword-argument dict `connection_params` built in
`SnowflakeClient.connect` (lines 62-77): the three credentials plus
`authenticator`, and each optional field only if truthy. -/
structure ConnectionParams where
  account : String
  user : String
  token : String
  authenticator : String
  warehouse : Option String
  database : Option String
  schema : Option String
  role : Option String
deriving DecidableEq, Repr

/-- The `SnowflakeClient` object state (constructor lines 41-48). -/
structure SnowflakeClient where
  account : String
  username : String
  token : String
  warehouse : Option String
  database : Option String
  schema : Option String
  role : Option String
  connection : Option Connection
deriving DecidableEq, Repr

/-- `SnowflakeClient.__init__`: stores the fields, `connection = None`. -/
def mkClient (account username token : String)
    (warehouse database schema role : Option String) : SnowflakeClient :=
  { account := account, username := username, token := token,
    warehouse := warehouse, database := database, schema := schema,
    role := role, connection := none }

/-- Lines 62-77 of `connect`: assemble the driver keyword arguments. -/
def SnowflakeClient.connectionParams (c : SnowflakeClient) : ConnectionParams :=
  { account := c.account, user := c.username, token := c.token,
    authenticator := "oauth",
    warehouse := pyTruthy c.warehouse, database := pyTruthy c.database,
    schema := pyTruthy c.schema, role := pyTruthy c.role }

/-- What `snowflake.connector.connect` can do, as observed by the `try` block
of `SnowflakeClient.connect`: return a handle, raise a
`DatabaseError` (whose `str` is `msg`), or raise any other exception. -/
inductive DriverConnectOutcome where
  | success (conn : Connection)
  | databaseError (msg : String)
  | otherError (msg : String)
deriving DecidableEq, Repr

/-- Python `needle in haystack` on strings (substring test). -/
def strContains (haystack needle : String) : Bool :=
  decide (needle.toList <:+: haystack.toList)

/-- Python `str.lower()` on the ASCII fragment relevant here, applied
characterwise. -/
def strToLower (s : String) : String := ⟨s.data.map Char.toLower⟩

/-- `SnowflakeClient.connect` (lines 53-89).  The driver oracle is applied to
the assembled parameters; a `DatabaseError` whose message contains
"authentication" (case-insensitively) becomes `AuthenticationError`, any
other `DatabaseError` becomes `SnowflakeConnectionError`, and any other
exception is wrapped as `SnowflakeConnectionError`.  The second component
is the list of driver invocations made (here always exactly one, since the
Python code reaches `snowflake.connector.connect` unconditionally). -/
def SnowflakeClient.connect (c : SnowflakeClient)
    (driver : ConnectionParams → DriverConnectOutcome) :
    Except SfError SnowflakeClient × List ConnectionParams :=
  let params := c.connectionParams
  let result :=
    match driver params with
    | .success conn => .ok { c with connection := some conn }
    | .databaseError msg =>
        if strContains (strToLower msg) "authentication" then
          .error (.authenticationError ("Authentication failed: " ++ msg))
        else
          .error (.snowflakeConnectionError ("Failed to connect to Snowflake: " ++ msg))
    | .otherError msg =>
        .error (.snowflakeConnectionError ("Unexpected error connecting to Snowflake: " ++ msg))
  (result, [params])

/-- `SnowflakeClient.disconnect` (lines 91-96): close and drop the handle if
one is held, otherwise do nothing. -/
def SnowflakeClient.disconnect (c : SnowflakeClient) : SnowflakeClient :=
  match c.connection with
  | some _ => { c with connection := none }
  | none => c

/-- `SnowflakeClient.is_connected` (lines 98-100): a handle exists and
`is_closed()` is false. -/
def SnowflakeClient.is_connected (c : SnowflakeClient) : Bool :=
  match c.connection with
  | some conn => !conn.closed
  | none => false

/-- A Record is a Python `dict` preserving insertion order: an ordered list of
key/value pairs with distinct keys maintained by in-place update. -/
abbrev Record := List (String × Value)

/-- `d[k] = v` on a Python dict: update in place if `k` is present, else
append at the end. -/
def dictInsert (d : Record) (k : String) (v : Value) : Record :=
  if d.any (fun p => p.1 == k) then
    d.map (fun p => if p.1 == k then (k, v) else p)
  else
    d ++ [(k, v)]

/-- Python `dict(pairs)`: left-to-right insertion. -/
def dictOfPairs (ps : List (String × Value)) : Record :=
  ps.foldl (fun d p => dictInsert d p.1 p.2) []

/-- `dict(zip(columns, row))` as used on lines 142 and 192. -/
def dictZip (columns : List String) (row : List Value) : Record :=
  dictOfPairs (columns.zip row)

/-- The result-materialization loop shared by `call_stored_procedure`
(lines 137-144) and `execute_query` (lines 188-193): if
`cursor.description` is truthy (present and non-empty), each fetched row is
turned into a dict keyed by the first element of each description tuple;
otherwise `results` stays `[]`. -/
def materializeResults (description : Option (List String))
    (rows : List (List Value)) : List Record :=
  match description with
  | some columns =>
      if columns.isEmpty then []
      else rows.map (fun row => dictZip columns row)
  | none => []

/-- What `cursor.execute` + fetch can do, as observed by the `try` blocks: a
result (the cursor's description column names, or `none`, and the fetched
rows), a raised `ProgrammingError`, or any other exception. -/
inductive DriverExecOutcome where
  | success (description : Option (List String)) (rows : List (List Value))
  | programmingError (msg : String)
  | otherError (msg : String)
deriving DecidableEq, Repr

/-- One `cursor.execute` invocation: the SQL text and the bound parameter
tuple (`none` when `execute` is called without a parameter argument). -/
abbrev DriverCall := String × Option (List Value)

/-- Lines 125-135: build the CALL statement.  Python `if parameters:` is
truthy only for a present, non-empty list; in that case the statement gets
`', '.join(['%s'] * len(parameters))` as placeholders and the parameter
list is passed to `cursor.execute` for binding; otherwise the statement is
a zero-argument CALL executed with no bindings. -/
def buildCallStatement (procedureName : String)
    (parameters : Option (List Value)) : DriverCall :=
  match parameters with
  | some ps =>
      if ps.isEmpty then ("CALL " ++ procedureName ++ "()", none)
      else
        let placeholders := String.intercalate ", " (List.replicate ps.length "%s")
        ("CALL " ++ procedureName ++ "(" ++ placeholders ++ ")", some ps)
  | none => ("CALL " ++ procedureName ++ "()", none)

/-- `SnowflakeClient.call_stored_procedure` (lines 102-152).  The exec oracle
maps each `cursor.execute` call to an outcome.  Returns the Python result
(`results` or the raised error) together with the trace of driver
invocations. -/
def SnowflakeClient.call_stored_procedure (c : SnowflakeClient)
    (driver : DriverCall → DriverExecOutcome)
    (procedureName : String) (parameters : Option (List Value)) :
    Except SfError (List Record) × List DriverCall :=
  if !c.is_connected then
    (.error (.snowflakeConnectionError "Not connected to Snowflake. Call connect() first."), [])
  else
    let call := buildCallStatement procedureName parameters
    let result :=
      match driver call with
      | .success description rows => .ok (materializeResults description rows)
      | .programmingError msg =>
          .error (.storedProcedureError
            ("Error executing stored procedure " ++ procedureName ++ ": " ++ msg))
      | .otherError msg =>
          .error (.storedProcedureError
            ("Unexpected error executing stored procedure " ++ procedureName ++ ": " ++ msg))
    (result, [call])

/-- `SnowflakeClient.call_sp_example` (lines 154-164). -/
def SnowflakeClient.call_sp_example (c : SnowflakeClient)
    (driver : DriverCall → DriverExecOutcome)
    (parameters : Option (List Value)) :
    Except SfError (List Record) × List DriverCall :=
  c.call_stored_procedure driver "sp_example" parameters

/-- `SnowflakeClient.execute_query` (lines 166-202): the query string is
executed as-is with no bindings; error messages carry the cause but not
the query text. -/
def SnowflakeClient.execute_query (c : SnowflakeClient)
    (driver : DriverCall → DriverExecOutcome) (query : String) :
    Except SfError (List Record) × List DriverCall :=
  if !c.is_connected then
    (.error (.snowflakeConnectionError "Not connected to Snowflake. Call connect() first."), [])
  else
    let call : DriverCall := (query, none)
    let result :=
      match driver call with
      | .success description rows => .ok (materializeResults description rows)
      | .programmingError msg =>
          .error (.storedProcedureError ("Error executing query: " ++ msg))
      | .otherError msg =>
          .error (.storedProcedureError ("Unexpected error executing query: " ++ msg))
    (result, [call])

/-- How the body of a `with` block terminates: a normal value or a raised
exception. -/
inductive BodyOutcome (α : Type) where
  | normal (a : α)
  | raised (msg : String)
deriving DecidableEq, Repr

/-- Result of running `with client: body` — the overall outcome (a connect
error from `__enter__`, or the body's own termination, which propagates
because `__exit__` returns `None`), the final client state, and how many
times `disconnect` ran. -/
structure WithResult (α : Type) where
  outcome : Except SfError (BodyOutcome α)
  finalClient : SnowflakeClient
  disconnectCalls : Nat
deriving Repr

/-- The context-manager protocol applied to `SnowflakeClient.__enter__` /
`__exit__` (lines 204-211): `__enter__` calls `connect`; if it raises, the
body and `__exit__` never run.  Otherwise the body runs, and `__exit__`
(which calls `disconnect`) runs exactly once on every exit path — normal
or raised — before the body's exception, if any, propagates. -/
def withClient {α : Type} (c : SnowflakeClient)
    (driver : ConnectionParams → DriverConnectOutcome)
    (body : SnowflakeClient → BodyOutcome α) : WithResult α :=
  match (c.connect driver).1 with
  | .error e => { outcome := .error e, finalClient := c, disconnectCalls := 0 }
  | .ok c' =>
      { outcome := .ok (body c'), finalClient := c'.disconnect, disconnectCalls := 1 }

/-- Python `s.split(sep)` for a one-character separator, at the character
level: the (possibly empty) chunks between occurrences of `sep`;
splitting the empty string gives one empty chunk, as in Python. -/
def splitChars (sep : Char) : List Char → List (List Char)
  | [] => [[]]
  | c :: cs =>
      let rest := splitChars sep cs
      if c = sep then [] :: rest
      else
        match rest with
        | chunk :: chunks => (c :: chunk) :: chunks
        | [] => [[c]]

/-- Python `s.split(sep)` for a one-character separator. -/
def pySplit (sep : Char) (s : String) : List String :=
  (splitChars sep s.data).map (fun l => ⟨l⟩)

/-- Python `s.strip()`: remove whitespace from both ends. -/
def pyStrip (s : String) : String :=
  ⟨((s.data.dropWhile Char.isWhitespace).reverse.dropWhile
      Char.isWhitespace).reverse⟩

/-- JSON unsigned-integer grammar on a token's characters: one or more
digits, with no leading zero in a multi-digit number. -/
def intLiteralCore (l : List Char) : Option Nat :=
  if l.isEmpty then none
  else if !l.all Char.isDigit then none
  else if 1 < l.length && l.head? = some '0' then none
  else some (l.foldl (fun n c => 10 * n + (c.toNat - 48)) 0)

/-- Modelled fragment of Python `json.loads` as used by
`cli.parse_parameters` on single comma-free tokens: the keywords
`true`/`false`/`null`, integer literals (optionally negated), and
escape-free double-quoted strings succeed with the corresponding scalar;
every other token raises `JSONDecodeError`, i.e. yields `none` here.
(Floats and containers are outside the modelled fragment.) -/
def jsonLoadsList (l : List Char) : Option Value :=
  if l = "true".data then some (.bool true)
  else if l = "false".data then some (.bool false)
  else if l = "null".data then some .null
  else
    match intLiteralCore l with
    | some n => some (.int n)
    | none =>
        match l with
        | '-' :: rest =>
            match intLiteralCore rest with
            | some n => some (.int (-(n : Int)))
            | none => none
        | '"' :: rest =>
            if !rest.isEmpty && rest.getLast? = some '"' &&
                rest.dropLast.all (fun ch => ch ≠ '"' && ch ≠ '\\') then
              some (.str ⟨rest.dropLast⟩)
            else none
        | _ => none

/-- Python `json.loads` on one token (see `jsonLoadsList`). -/
def jsonLoads (s : String) : Option Value := jsonLoadsList s.data

/-- The loop body of `parse_parameters` (cli.py lines 47-54): try
`json.loads` on the token, fall back to the literal string. -/
def parseToken (param : String) : Value :=
  match jsonLoads param with
  | some v => v
  | none => .str param

/-- `cli.parse_parameters` (lines 29-56): a falsy argument (`None` or the
empty string) yields `None`; otherwise split on commas, strip each token,
and parse each token independently. -/
def parse_parameters : Option String → Option (List Value)
  | none => none
  | some s =>
      if s.data.isEmpty then none
      else
        let params := (pySplit ',' s).map pyStrip
        some (params.map parseToken)

/-- The configuration inputs of `cli.main`: for each of the seven keys, the
environment variable's value and the command-line flag's value (absent or
the given string). -/
structure CliInputs where
  envAccount : Option String
  envUsername : Option String
  envToken : Option String
  envWarehouse : Option String
  envDatabase : Option String
  envSchema : Option String
  envRole : Option String
  argAccount : Option String
  argUsername : Option String
  argToken : Option String
  argWarehouse : Option String
  argDatabase : Option String
  argSchema : Option String
  argRole : Option String
deriving DecidableEq, Repr

/-- The effective config entry for one key: `load_config_from_env` stores the
env value only if truthy (lines 73-76), then `main` overrides with the CLI
argument only if truthy (lines 136-139).  `none` means the key is absent
from the config dict. -/
def configValue (env arg : Option String) : Option String :=
  match pyTruthy arg with
  | some v => some v
  | none => pyTruthy env

/-- Lines 142-143 of `cli.main`: the required parameters, in order, that are
absent from the config dict. -/
def missingParams (i : CliInputs) : List String :=
  (if (configValue i.envAccount i.argAccount).isNone then ["account"] else []) ++
  (if (configValue i.envUsername i.argUsername).isNone then ["username"] else []) ++
  (if (configValue i.envToken i.argToken).isNone then ["token"] else [])

/-- The configuration-validation and connect portion of `cli.main`
(lines 131-163): if any required parameter is missing, raise
`ConfigurationError` before a client exists, so the driver is never
invoked; otherwise construct the client from the config (the `getD ""`
defaults are unreachable because the guard ensures all three required
entries are present) and connect. -/
def cliConnect (i : CliInputs)
    (driver : ConnectionParams → DriverConnectOutcome) :
    Except SfError SnowflakeClient × List ConnectionParams :=
  let missing := missingParams i
  if missing.isEmpty then
    let client := mkClient
      ((configValue i.envAccount i.argAccount).getD "")
      ((configValue i.envUsername i.argUsername).getD "")
      ((configValue i.envToken i.argToken).getD "")
      (configValue i.envWarehouse i.argWarehouse)
      (configValue i.envDatabase i.argDatabase)
      (configValue i.envSchema i.argSchema)
      (configValue i.envRole i.argRole)
    client.connect driver
  else
    (.error (.configurationError
      ("Missing required parameters: " ++ String.intercalate ", " missing ++
        ". Provide them via command line arguments or environment variables.")), [])

/-- A concrete open connection handle, used by the concrete instantiations
below. -/
def conn0 : Connection := ⟨0, false⟩

/-- A concrete client holding an open connection. -/
def connectedClient : SnowflakeClient :=
  { mkClient "myacct" "myuser" "mytok" none none none none with
    connection := some conn0 }

/-- A concrete client holding a closed connection handle. -/
def closedClient : SnowflakeClient :=
  { mkClient "myacct" "myuser" "mytok" none none none none with
    connection := some ⟨1, true⟩ }

/-! ## Helper lemmas -/

theorem strContains_decomp (pre mid post : String) :
    strContains (pre ++ mid ++ post) mid = true := by
  apply decide_eq_true
  exact ⟨pre.toList, post.toList, by simp⟩

theorem strContains_suffix (pre mid : String) :
    strContains (pre ++ mid) mid = true := by
  have h := strContains_decomp pre mid ""
  rwa [String.append_empty] at h

theorem disconnect_connection_none (c : SnowflakeClient) :
    (c.disconnect).connection = none := by
  unfold SnowflakeClient.disconnect
  rcases hc : c.connection with _ | conn <;> simp [hc]

theorem is_connected_disconnect (c : SnowflakeClient) :
    (c.disconnect).is_connected = false := by
  unfold SnowflakeClient.is_connected
  rw [disconnect_connection_none]

theorem dictInsert_fresh (d : Record) (k : String) (v : Value)
    (h : ∀ q ∈ d, q.1 ≠ k) : dictInsert d k v = d ++ [(k, v)] := by
  unfold dictInsert
  have : d.any (fun p => p.1 == k) = false := by
    simp only [List.any_eq_false]
    intro p hp
    simpa using h p hp
  rw [this]
  simp

theorem dictOfPairs_foldl_nodup (ps : List (String × Value)) (acc : Record)
    (hdisj : ∀ p ∈ ps, ∀ q ∈ acc, p.1 ≠ q.1)
    (hps : (ps.map Prod.fst).Nodup) :
    ps.foldl (fun d p => dictInsert d p.1 p.2) acc = acc ++ ps := by
  induction ps generalizing acc with
  | nil => simp
  | cons p ps ih =>
      rw [List.map_cons, List.nodup_cons] at hps
      simp only [List.foldl_cons]
      rw [dictInsert_fresh acc p.1 p.2
        (fun q hq => (hdisj p (List.mem_cons_self p ps) q hq).symm)]
      have hstep := ih (acc ++ [(p.1, p.2)])
        (by
          intro r hr q hq
          rcases List.mem_append.mp hq with hq | hq
          · exact hdisj r (List.mem_cons_of_mem p hr) q hq
          · have hq' : q = (p.1, p.2) := by simpa using hq
            subst hq'
            intro hcontra
            exact hps.1 (hcontra ▸ List.mem_map_of_mem Prod.fst hr))
        hps.2
      rw [hstep]
      simp

theorem map_fst_zip_sublist (columns : List String) (row : List Value) :
    ((columns.zip row).map Prod.fst).Sublist columns := by
  induction columns generalizing row with
  | nil => simp
  | cons c cs ih =>
      cases row with
      | nil => simp
      | cons v vs =>
          simpa using List.Sublist.cons₂ c (ih vs)

theorem disconnect_of_none (d : SnowflakeClient) (h : d.connection = none) :
    d.disconnect = d := by
  unfold SnowflakeClient.disconnect
  rw [h]

theorem disconnect_idem (d : SnowflakeClient) :
    d.disconnect.disconnect = d.disconnect :=
  disconnect_of_none _ (disconnect_connection_none d)

theorem dictZip_nodup (columns : List String) (row : List Value)
    (h : columns.Nodup) : dictZip columns row = columns.zip row := by
  unfold dictZip dictOfPairs
  rw [dictOfPairs_foldl_nodup _ [] (by simp)
    ((map_fst_zip_sublist columns row).nodup h)]
  simp

/-! ## Claim theorems -/

/-- C2: every driver failure during `connect` is classified — a database
error whose message mentions "authentication" (case-insensitively) becomes
`AuthenticationError`; any other database error becomes
`SnowflakeConnectionError` wrapping the original message; any other
unexpected exception is wrapped as `SnowflakeConnectionError`; and
`connect` never produces anything but success, `AuthenticationError`, or
`SnowflakeConnectionError` — no raw, unclassified error propagates. -/
theorem C2_connect_error_classification (c : SnowflakeClient)
    (driver : ConnectionParams → DriverConnectOutcome) :
    (∀ msg, driver c.connectionParams = .databaseError msg →
      (c.connect driver).1 =
        if strContains (strToLower msg) "authentication" then
          .error (.authenticationError ("Authentication failed: " ++ msg))
        else
          .error (.snowflakeConnectionError ("Failed to connect to Snowflake: " ++ msg))) ∧
    (∀ msg, driver c.connectionParams = .otherError msg →
      (c.connect driver).1 =
        .error (.snowflakeConnectionError
          ("Unexpected error connecting to Snowflake: " ++ msg))) ∧
    ((∃ c', (c.connect driver).1 = .ok c') ∨
      (∃ m, (c.connect driver).1 = .error (.authenticationError m)) ∨
      (∃ m, (c.connect driver).1 = .error (.snowflakeConnectionError m))) := by
  refine ⟨?_, ?_, ?_⟩
  · intro msg h
    simp [SnowflakeClient.connect, h]
  · intro msg h
    simp [SnowflakeClient.connect, h]
  · rcases hd : driver c.connectionParams with conn | msg | msg
    · exact Or.inl ⟨{ c with connection := some conn },
        by simp [SnowflakeClient.connect, hd]⟩
    · by_cases hauth : strContains (strToLower msg) "authentication" = true
      · exact Or.inr (Or.inl ⟨"Authentication failed: " ++ msg,
          by simp [SnowflakeClient.connect, hd, hauth]⟩)
      · have hf : strContains (strToLower msg) "authentication" = false := by
          simpa using hauth
        exact Or.inr (Or.inr ⟨"Failed to connect to Snowflake: " ++ msg,
          by simp [SnowflakeClient.connect, hd, hf]⟩)
    · exact Or.inr (Or.inr ⟨"Unexpected error connecting to Snowflake: " ++ msg,
        by simp [SnowflakeClient.connect, hd]⟩)

/-- Concrete instantiation of C2: a database error mentioning
authentication surfaces as `AuthenticationError`. -/
theorem C2_connect_error_classification_witness :
    ((mkClient "myacct" "myuser" "mytok" none none none none).connect
        (fun _ => .databaseError "Authentication token expired")).1 =
      .error (.authenticationError
        "Authentication failed: Authentication token expired") := by
  have h := (C2_connect_error_classification
      (mkClient "myacct" "myuser" "mytok" none none none none)
      (fun _ => .databaseError "Authentication token expired")).1
      "Authentication token expired" rfl
  rw [h]
  have ht : strContains (strToLower "Authentication token expired") "authentication" = true := by
    decide
  rw [ht]
  rfl

/-- C5: while the session is Disconnected — no connection handle, or a
closed one — both `call_stored_procedure` and `execute_query` raise the
not-connected `SnowflakeConnectionError` and the driver is never invoked
(the invocation trace is empty), so no driver-level exception can surface
from this precondition check. -/
theorem C5_disconnected_precondition (c : SnowflakeClient)
    (driver : DriverCall → DriverExecOutcome)
    (procedureName query : String) (parameters : Option (List Value))
    (h : c.connection = none ∨
      ∃ conn, c.connection = some conn ∧ conn.closed = true) :
    c.call_stored_procedure driver procedureName parameters =
      (.error (.snowflakeConnectionError
        "Not connected to Snowflake. Call connect() first."), []) ∧
    c.execute_query driver query =
      (.error (.snowflakeConnectionError
        "Not connected to Snowflake. Call connect() first."), []) := by
  have hic : c.is_connected = false := by
    rcases h with h | ⟨conn, hc, hcl⟩
    · simp [SnowflakeClient.is_connected, h]
    · simp [SnowflakeClient.is_connected, hc, hcl]
  constructor <;>
    simp [SnowflakeClient.call_stored_procedure, SnowflakeClient.execute_query, hic]

/-- Concrete instantiation of C5 with a closed connection handle. -/
theorem C5_disconnected_precondition_witness :
    closedClient.call_stored_procedure (fun _ => .success none [])
        "sp_example" none =
      (.error (.snowflakeConnectionError
        "Not connected to Snowflake. Call connect() first."), []) :=
  (C5_disconnected_precondition closedClient (fun _ => .success none [])
    "sp_example" "SELECT 1" none (Or.inr ⟨⟨1, true⟩, rfl, rfl⟩)).1

/-- C7: in the scoped (context-manager) pattern, entering performs
`connect`; whenever that succeeds, the body's outcome — normal or raised —
propagates, `disconnect` runs exactly once on every such exit path, and
the final client is disconnected. -/
theorem C7_scoped_lifecycle {α : Type} (c : SnowflakeClient)
    (driver : ConnectionParams → DriverConnectOutcome)
    (body : SnowflakeClient → BodyOutcome α) (c' : SnowflakeClient)
    (h : (c.connect driver).1 = .ok c') :
    (withClient c driver body).disconnectCalls = 1 ∧
    (withClient c driver body).outcome = .ok (body c') ∧
    (withClient c driver body).finalClient.is_connected = false := by
  unfold withClient
  rw [h]
  exact ⟨rfl, rfl, is_connected_disconnect c'⟩

/-- Concrete instantiation of C7: the body raises, yet `disconnect` still
runs exactly once and the raised outcome propagates. -/
theorem C7_scoped_lifecycle_witness :
    (withClient (mkClient "myacct" "myuser" "mytok" none none none none)
        (fun _ => .success conn0)
        (fun _ => (BodyOutcome.raised "boom" : BodyOutcome Unit))).disconnectCalls = 1 ∧
    (withClient (mkClient "myacct" "myuser" "mytok" none none none none)
        (fun _ => .success conn0)
        (fun _ => (BodyOutcome.raised "boom" : BodyOutcome Unit))).outcome =
      .ok (.raised "boom") ∧
    (withClient (mkClient "myacct" "myuser" "mytok" none none none none)
        (fun _ => .success conn0)
        (fun _ => (BodyOutcome.raised "boom" : BodyOutcome Unit))).finalClient.is_connected
      = false :=
  C7_scoped_lifecycle (mkClient "myacct" "myuser" "mytok" none none none none)
    (fun _ => .success conn0)
    (fun _ => (BodyOutcome.raised "boom" : BodyOutcome Unit))
    connectedClient rfl

/-- C8: `disconnect` is idempotent and a no-op when already disconnected;
after any `disconnect`, `is_connected` is false; after a successful
`connect` handing back an open handle, `is_connected` is true until
`disconnect` is called. -/
theorem C8_disconnect_idempotent (c : SnowflakeClient)
    (driver : ConnectionParams → DriverConnectOutcome) (conn : Connection)
    (hdriver : driver c.connectionParams = .success conn)
    (hopen : conn.closed = false) :
    (∃ c', (c.connect driver).1 = .ok c' ∧ c'.is_connected = true ∧
      (c'.disconnect).is_connected = false ∧
      c'.disconnect.disconnect = c'.disconnect) ∧
    (∀ d : SnowflakeClient, d.disconnect.disconnect = d.disconnect) ∧
    (∀ d : SnowflakeClient, d.connection = none → d.disconnect = d) ∧
    (∀ d : SnowflakeClient, (d.disconnect).is_connected = false) := by
  refine ⟨⟨{ c with connection := some conn }, ?_, ?_, ?_, ?_⟩, ?_, ?_, ?_⟩
  · simp [SnowflakeClient.connect, hdriver]
  · simp [SnowflakeClient.is_connected, hopen]
  · exact is_connected_disconnect _
  · exact disconnect_idem _
  · exact disconnect_idem
  · exact disconnect_of_none
  · exact is_connected_disconnect

/-- Concrete instantiation of C8. -/
theorem C8_disconnect_idempotent_witness :
    (∃ c', ((mkClient "myacct" "myuser" "mytok" none none none none).connect
        (fun _ => .success conn0)).1 = .ok c' ∧ c'.is_connected = true ∧
      (c'.disconnect).is_connected = false ∧
      c'.disconnect.disconnect = c'.disconnect) ∧
    (∀ d : SnowflakeClient, d.disconnect.disconnect = d.disconnect) ∧
    (∀ d : SnowflakeClient, d.connection = none → d.disconnect = d) ∧
    (∀ d : SnowflakeClient, (d.disconnect).is_connected = false) :=
  C8_disconnect_idempotent (mkClient "myacct" "myuser" "mytok" none none none none)
    (fun _ => .success conn0) conn0 rfl rfl

/-- C10: an explicit empty parameter list behaves exactly as passing no
parameter list: the statement is the zero-argument CALL and nothing is
bound — the whole operation is identical to the no-parameters call. -/
theorem C10_empty_parameter_list (c : SnowflakeClient)
    (driver : DriverCall → DriverExecOutcome) (procedureName : String) :
    buildCallStatement procedureName (some []) =
      buildCallStatement procedureName none ∧
    buildCallStatement procedureName (some []) =
      ("CALL " ++ procedureName ++ "()", none) ∧
    c.call_stored_procedure driver procedureName (some []) =
      c.call_stored_procedure driver procedureName none := by
  refine ⟨by simp [buildCallStatement], by simp [buildCallStatement], ?_⟩
  unfold SnowflakeClient.call_stored_procedure
  simp [buildCallStatement]

/-- CLI inputs in which the three required values are given only as empty
strings (falsy), so none of them enters the config. -/
def emptyCredInputs : CliInputs :=
  { envAccount := none, envUsername := none, envToken := none,
    envWarehouse := none, envDatabase := none, envSchema := none,
    envRole := none,
    argAccount := some "", argUsername := some "", argToken := some "",
    argWarehouse := none, argDatabase := none, argSchema := none,
    argRole := none }

/-- C1 counterexample: `SnowflakeClient.connect` itself performs no
emptiness validation.  With an empty account it still invokes the driver
(the invocation trace has length one — a network attempt is made) and the
failure surfaces as `SnowflakeConnectionError`, not `ConfigurationError`,
refuting the claim that connect fails with `ConfigurationError` and never
reaches the driver. -/
theorem C1_counterexample :
    ((mkClient "" "myuser" "mytok" none none none none).connect
        (fun _ => .databaseError "could not resolve hostname")).2.length = 1 ∧
    ((mkClient "" "myuser" "mytok" none none none none).connect
        (fun _ => .databaseError "could not resolve hostname")).1 =
      .error (.snowflakeConnectionError
        "Failed to connect to Snowflake: could not resolve hostname") := by
  exact ⟨rfl, rfl⟩

/-- C1 (amended): the fail-fast guarantee holds at the CLI entry point: if
any of account, username, or token is absent or empty after merging
environment variables and flags, `main` raises `ConfigurationError`
before any client exists and the driver is never invoked (the invocation
trace is empty). -/
theorem C1_cli_validation (i : CliInputs)
    (driver : ConnectionParams → DriverConnectOutcome)
    (h : configValue i.envAccount i.argAccount = none ∨
      configValue i.envUsername i.argUsername = none ∨
      configValue i.envToken i.argToken = none) :
    (∃ msg, (cliConnect i driver).1 = .error (.configurationError msg)) ∧
    (cliConnect i driver).2 = [] := by
  have hne : (missingParams i).isEmpty = false := by
    unfold missingParams
    rcases h with h | h | h <;> simp [h]
  refine ⟨⟨"Missing required parameters: " ++
      String.intercalate ", " (missingParams i) ++
      ". Provide them via command line arguments or environment variables.",
      ?_⟩, ?_⟩ <;>
    simp [cliConnect, hne]

/-- Concrete instantiation of the amended C1: all three required values
given as empty strings. -/
theorem C1_cli_validation_witness :
    (∃ msg, (cliConnect emptyCredInputs
        (fun _ => .databaseError "boom")).1 =
      .error (.configurationError msg)) ∧
    (cliConnect emptyCredInputs (fun _ => .databaseError "boom")).2 = [] :=
  C1_cli_validation emptyCredInputs (fun _ => .databaseError "boom")
    (Or.inl rfl)

/-- A driver whose single result is two columns `A`, `B` and two rows. -/
def resultDriver : DriverCall → DriverExecOutcome :=
  fun _ => .success (some ["A", "B"])
    [[.int 1, .str "x"], [.int 2, .str "y"]]

/-- C3: with column metadata, both operations return one record per row in
row order, each record pairing the column names with that row's values in
the driver-reported column order; with no column metadata the result is
the empty list — `.ok []`, never absent. -/
theorem C3_result_materialization (c : SnowflakeClient)
    (driver : DriverCall → DriverExecOutcome)
    (procedureName query : String) (parameters : Option (List Value))
    (columns : List String) (rows : List (List Value))
    (hconn : c.is_connected = true)
    (hnodup : columns.Nodup) (hne : columns ≠ []) :
    (driver (buildCallStatement procedureName parameters) =
        .success (some columns) rows →
      (c.call_stored_procedure driver procedureName parameters).1 =
        .ok (rows.map (fun row => columns.zip row))) ∧
    (driver (query, none) = .success (some columns) rows →
      (c.execute_query driver query).1 =
        .ok (rows.map (fun row => columns.zip row))) ∧
    (driver (buildCallStatement procedureName parameters) =
        .success none rows →
      (c.call_stored_procedure driver procedureName parameters).1 = .ok []) ∧
    (driver (query, none) = .success none rows →
      (c.execute_query driver query).1 = .ok []) := by
  have hcne : columns.isEmpty = false := by
    cases columns <;> simp_all
  have hdz : ∀ row, dictZip columns row = columns.zip row :=
    fun row => dictZip_nodup columns row hnodup
  refine ⟨?_, ?_, ?_, ?_⟩ <;> intro hd <;>
    simp [SnowflakeClient.call_stored_procedure, SnowflakeClient.execute_query,
      hconn, hd, materializeResults, hcne, hdz]

/-- Concrete instantiation of C3: columns `[A, B]` with rows
`[(1, "x"), (2, "y")]` decode to `[{A: 1, B: "x"}, {A: 2, B: "y"}]`. -/
theorem C3_result_materialization_witness :
    (connectedClient.call_stored_procedure resultDriver "my_proc" none).1 =
      .ok [[("A", Value.int 1), ("B", Value.str "x")],
        [("A", Value.int 2), ("B", Value.str "y")]] := by
  have h := (C3_result_materialization connectedClient resultDriver "my_proc"
      "SELECT 1" none ["A", "B"]
      [[.int 1, .str "x"], [.int 2, .str "y"]] rfl (by decide) (by decide)).1 rfl
  rw [h]
  rfl

/-- C4 counterexample: an `execute_query` failure message does not contain
the identifier of what was executed — for query `SELECT * FROM T` and
driver error `boom`, the `StoredProcedureError` message is
`Error executing query: boom`, which does not contain the query text,
refuting the claim that the message always includes the query
identifier. -/
theorem C4_counterexample :
    (connectedClient.execute_query (fun _ => .programmingError "boom")
        "SELECT * FROM T").1 =
      .error (.storedProcedureError "Error executing query: boom") ∧
    strContains "Error executing query: boom" "SELECT * FROM T" = false := by
  exact ⟨rfl, by decide⟩

/-- C4 (amended): every execution-time failure of either operation raises
`StoredProcedureError` whose message contains the original underlying
cause text; for `call_stored_procedure` the message also contains the
procedure name; `execute_query`'s message contains the cause but not, in
general, the query text. -/
theorem C4_error_message_contents (c : SnowflakeClient)
    (driver : DriverCall → DriverExecOutcome)
    (procedureName query msg : String) (parameters : Option (List Value))
    (hconn : c.is_connected = true) :
    ((driver (buildCallStatement procedureName parameters) =
          .programmingError msg ∨
      driver (buildCallStatement procedureName parameters) = .otherError msg) →
      ∃ m, (c.call_stored_procedure driver procedureName parameters).1 =
          .error (.storedProcedureError m) ∧
        strContains m procedureName = true ∧ strContains m msg = true) ∧
    ((driver (query, none) = .programmingError msg ∨
      driver (query, none) = .otherError msg) →
      ∃ m, (c.execute_query driver query).1 =
          .error (.storedProcedureError m) ∧
        strContains m msg = true) := by
  constructor
  · rintro (hd | hd)
    · refine ⟨"Error executing stored procedure " ++ procedureName ++
        ": " ++ msg, ?_, ?_, ?_⟩
      · simp [SnowflakeClient.call_stored_procedure, hconn, hd]
      · have h1 := strContains_decomp "Error executing stored procedure "
          procedureName (": " ++ msg)
        rwa [← String.append_assoc] at h1
      · exact strContains_suffix _ msg
    · refine ⟨"Unexpected error executing stored procedure " ++
        procedureName ++ ": " ++ msg, ?_, ?_, ?_⟩
      · simp [SnowflakeClient.call_stored_procedure, hconn, hd]
      · have h1 := strContains_decomp
          "Unexpected error executing stored procedure "
          procedureName (": " ++ msg)
        rwa [← String.append_assoc] at h1
      · exact strContains_suffix _ msg
  · rintro (hd | hd)
    · exact ⟨"Error executing query: " ++ msg,
        by simp [SnowflakeClient.execute_query, hconn, hd],
        strContains_suffix _ msg⟩
    · exact ⟨"Unexpected error executing query: " ++ msg,
        by simp [SnowflakeClient.execute_query, hconn, hd],
        strContains_suffix _ msg⟩

/-- Concrete instantiation of the amended C4: a nonexistent procedure name
appears in the `StoredProcedureError` message together with the driver's
cause text. -/
theorem C4_error_message_contents_witness :
    ∃ m, (connectedClient.call_stored_procedure
        (fun _ => .programmingError "missing procedure")
        "nonexistent_proc" none).1 = .error (.storedProcedureError m) ∧
      strContains m "nonexistent_proc" = true ∧
      strContains m "missing procedure" = true :=
  (C4_error_message_contents connectedClient
    (fun _ => .programmingError "missing procedure")
    "nonexistent_proc" "SELECT 1" "missing procedure" none rfl).1 (Or.inl rfl)

/-- C6: with a non-empty parameter list the CALL statement carries exactly
one positional placeholder per parameter, the values travel separately
through the driver's binding mechanism (the statement text depends only
on how many parameters there are, never on their values), and the driver
receives exactly that statement with those bindings; with no parameters
the statement is the zero-argument CALL with nothing bound. -/
theorem C6_call_binding (procedureName : String) (ps : List Value)
    (hne : ps ≠ []) :
    (buildCallStatement procedureName (some ps)).1 =
      "CALL " ++ procedureName ++ "(" ++
        String.intercalate ", " (List.replicate ps.length "%s") ++ ")" ∧
    (List.replicate ps.length "%s").length = ps.length ∧
    (buildCallStatement procedureName (some ps)).2 = some ps ∧
    (∀ qs : List Value, qs ≠ [] → qs.length = ps.length →
      (buildCallStatement procedureName (some qs)).1 =
        (buildCallStatement procedureName (some ps)).1) ∧
    buildCallStatement procedureName none =
      ("CALL " ++ procedureName ++ "()", none) ∧
    (∀ c : SnowflakeClient, ∀ driver : DriverCall → DriverExecOutcome,
      c.is_connected = true →
      (c.call_stored_procedure driver procedureName (some ps)).2 =
        [buildCallStatement procedureName (some ps)]) := by
  have hpe : ps.isEmpty = false := by cases ps <;> simp_all
  refine ⟨?_, ?_, ?_, ?_, ?_, ?_⟩
  · simp [buildCallStatement, hpe]
  · simp
  · simp [buildCallStatement, hpe]
  · intro qs hq hlen
    have hqe : qs.isEmpty = false := by cases qs <;> simp_all
    simp [buildCallStatement, hpe, hqe, hlen]
  · rfl
  · intro c driver hconn
    simp [SnowflakeClient.call_stored_procedure, hconn]

/-- Concrete instantiation of C6 with two parameters. -/
theorem C6_call_binding_witness :
    (buildCallStatement "sp_example"
        (some [Value.int 1, Value.str "a"])).1 =
      "CALL " ++ "sp_example" ++ "(" ++
        String.intercalate ", " (List.replicate 2 "%s") ++ ")" ∧
    (buildCallStatement "sp_example"
        (some [Value.int 1, Value.str "a"])).2 =
      some [Value.int 1, Value.str "a"] := by
  have h := C6_call_binding "sp_example" [Value.int 1, Value.str "a"]
    (by decide)
  exact ⟨h.1, h.2.2.1⟩

/-- C9: each comma-delimited token is stripped and independently attempted
as a structured-literal (`json.loads`) parse, falling back to the literal
stripped string when that parse fails, preserving token order; in
particular `"hello,123,true"` parses to `["hello", 123, true]`. -/
theorem C9_parameter_parsing :
    parse_parameters (some "hello,123,true") =
      some [Value.str "hello", Value.int 123, Value.bool true] ∧
    (∀ s : String, s.data.isEmpty = false → parse_parameters (some s) =
      some (((pySplit ',' s).map pyStrip).map parseToken)) ∧
    (∀ t, jsonLoads t = none → parseToken t = .str t) ∧
    (∀ t v, jsonLoads t = some v → parseToken t = v) := by
  refine ⟨by decide, ?_, ?_, ?_⟩
  · intro s hs
    simp [parse_parameters, hs]
  · intro t h
    simp [parseToken, h]
  · intro t v h
    simp [parseToken, h]

/-- Concrete instantiation of the quantified parts of C9. -/
theorem C9_parameter_parsing_witness :
    parse_parameters (some "a, 2") =
      some (((pySplit ',' "a, 2").map pyStrip).map parseToken) ∧
    parseToken "a" = .str "a" ∧
    parseToken "2" = .int 2 :=
  ⟨C9_parameter_parsing.2.1 "a, 2" rfl,
    C9_parameter_parsing.2.2.1 "a" rfl,
    C9_parameter_parsing.2.2.2 "2" (.int 2) rfl⟩

end SfRestcalls
